import Mathlib

/-!
Shallow embedding of the "Implementação e análise comparativa de servidores
web sequencial e concorrente" repository (Python), covering the request
parser (`core/http_utils.py`), the identity-token computation
(`core/crypto_utils.py`), the HTTP handlers (`core/server_handlers.py`),
the per-connection dispatch logic of the sequential/concurrent servers
(`server/sequential_server.py`, `server/concurrent_server.py`) and the
metrics engine (`tests/metrics.py`).

Python strings are Lean `String`s, Python byte strings are `List Nat`
(each entry < 256), Python floats that carry latencies/durations are
exact rationals `ℚ`, and Python functions that can raise are
`Except String _`-valued.
-/

namespace WebServer

/-! ### Python string primitives -/

/-- Python whitespace characters recognised by `str.split()` / `str.strip()`. -/
def pyIsSpace (c : Char) : Bool :=
  c == ' ' || c == '\t' || c == '\n' || c == '\r' ||
  c == Char.ofNat 11 || c == Char.ofNat 12

/-- Split a character list at every (leftmost-first) occurrence of the
two-character separator CR LF; `cur` is the reversed current piece. -/
def splitCRLFAux : List Char → List Char → List (List Char)
  | [], cur => [cur.reverse]
  | '\r' :: '\n' :: rest, cur => cur.reverse :: splitCRLFAux rest []
  | c :: rest, cur => splitCRLFAux rest (c :: cur)

/-- Python `s.split('\r\n')`. -/
def pySplitCRLF (s : String) : List String :=
  (splitCRLFAux s.data []).map String.mk

/-- Split a character list at every character satisfying `p`;
`cur` is the reversed current piece. -/
def splitPredAux (p : Char → Bool) : List Char → List Char → List (List Char)
  | [], cur => [cur.reverse]
  | c :: rest, cur =>
    if p c then cur.reverse :: splitPredAux p rest []
    else splitPredAux p rest (c :: cur)

/-- Python `s.split()` with no separator: split on whitespace runs,
dropping empty tokens. -/
def pySplitWs (s : String) : List String :=
  ((splitPredAux pyIsSpace s.data []).map String.mk).filter (fun t => t ≠ "")

/-- Python `'\r\n'.join(lines)`. -/
def joinCRLF (ls : List String) : String :=
  String.mk (List.flatten (List.intersperse ['\r', '\n'] (ls.map String.data)))

/-- Python `s.strip()`: remove leading and trailing whitespace. -/
def pyStrip (s : String) : String :=
  String.mk (((s.data.dropWhile (fun c => pyIsSpace c)).reverse.dropWhile
    (fun c => pyIsSpace c)).reverse)

/-- ASCII uppercase of one character (Python `str.upper` restricted to the
ASCII inputs that occur in this code base). -/
def pyUpperChar (c : Char) : Char :=
  if 'a' ≤ c ∧ c ≤ 'z' then Char.ofNat (c.toNat - 32) else c

/-- ASCII lowercase of one character. -/
def pyLowerChar (c : Char) : Char :=
  if 'A' ≤ c ∧ c ≤ 'Z' then Char.ofNat (c.toNat + 32) else c

/-- Python `s.upper()` (ASCII fragment). -/
def pyUpper (s : String) : String := String.mk (s.data.map pyUpperChar)

/-- Python `s.lower()` (ASCII fragment). -/
def pyLower (s : String) : String := String.mk (s.data.map pyLowerChar)

/-- Python truthiness of an optional string (`None` and `""` are falsy). -/
def pyTruthyOpt : Option String → Bool
  | none => false
  | some s => s ≠ ""

/-- Python `str(x)` on an optional string (`None` prints as `"None"`). -/
def pyShowOpt : Option String → String
  | none => "None"
  | some s => s

/-- Break a character list at the first colon (`none` if no colon). -/
def breakAtColon : List Char → Option (List Char × List Char)
  | [] => none
  | c :: rest =>
    if c = ':' then some ([], rest)
    else (breakAtColon rest).map (fun p => (c :: p.1, p.2))

/-- Python `header_line.split(':', 1)`: split at the first colon only
(identity left / empty right if no colon occurs). -/
def pySplitColon1 (s : String) : String × String :=
  match breakAtColon s.data with
  | none => (s, "")
  | some p => (String.mk p.1, String.mk p.2)

/-- Python dict assignment `d[k] = v` on a dict kept as an ordered
association list: replace in place if the key exists, else append. -/
def dictInsert (d : List (String × String)) (k v : String) :
    List (String × String) :=
  if d.any (fun p => p.1 == k) then
    d.map (fun p => if p.1 == k then (k, v) else p)
  else
    d ++ [(k, v)]

/-- Python `s.isdigit()` (ASCII decimal digits; `""` is falsy). -/
def pyIsDigitStr (s : String) : Bool :=
  s ≠ "" && s.data.all (fun c => c.isDigit)

/-! ### Bytes, UTF-8 and hex -/

/-- UTF-8 encoding of one character. -/
def utf8Char (c : Char) : List Nat :=
  let n := c.toNat
  if n < 128 then [n]
  else if n < 2048 then [192 + n / 64, 128 + n % 64]
  else if n < 65536 then [224 + n / 4096, 128 + (n / 64) % 64, 128 + n % 64]
  else [240 + n / 262144, 128 + (n / 4096) % 64, 128 + (n / 64) % 64,
        128 + n % 64]

/-- Python `s.encode('utf-8')` as a byte list. -/
def utf8Encode (s : String) : List Nat := s.data.flatMap utf8Char

/-- Lowercase hex digit for a value below 16. -/
def hexDigitCh (n : Nat) : Char :=
  if n < 10 then Char.ofNat (48 + n) else Char.ofNat (87 + n)

/-- Lowercase hexadecimal rendering of a byte list. -/
def bytesToHex (bs : List Nat) : String :=
  String.mk (bs.flatMap (fun b => [hexDigitCh (b / 16), hexDigitCh (b % 16)]))

/-! ### 32-bit word arithmetic (machine integers as `Nat` mod `2^32`) -/

/-- Reduce modulo `2^32`. -/
def mask32 (x : Nat) : Nat := x % 4294967296

/-- Rotate a 32-bit word left by `k` (for `0 < k < 32` and `x < 2^32`). -/
def rotl32 (x k : Nat) : Nat :=
  (x * 2 ^ k) % 4294967296 + x / 2 ^ (32 - k)

/-- Bitwise complement of a 32-bit word. -/
def bnot32 (x : Nat) : Nat := 4294967295 - x

/-- Helper for `chunksOf`: structurally recursive chunking with an
accumulator for the chunk being filled. -/
def chunksGo (size : Nat) : List Nat → List Nat → List (List Nat)
  | [], cur => if cur.isEmpty then [] else [cur]
  | x :: xs, cur =>
    let cur1 := cur ++ [x]
    if cur1.length = size then cur1 :: chunksGo size xs []
    else chunksGo size xs cur1

/-- Split a byte list into groups of `size` bytes (last group may be short). -/
def chunksOf (size : Nat) (l : List Nat) : List (List Nat) := chunksGo size l []

/-- Split a byte list into 64-byte chunks. -/
def chunks64 (l : List Nat) : List (List Nat) := chunksOf 64 l

/-- Split a byte list into 4-byte groups. -/
def chunks4 (l : List Nat) : List (List Nat) := chunksOf 4 l

/-- Big-endian 32-bit word from (up to) four bytes. -/
def beWord (b : List Nat) : Nat := b.foldl (fun acc x => acc * 256 + x) 0

/-- Little-endian 32-bit word from (up to) four bytes. -/
def leWord (b : List Nat) : Nat := b.foldr (fun x acc => acc * 256 + x) 0

/-- The eight-byte little-endian encoding of `n`. -/
def le8 (n : Nat) : List Nat :=
  (List.range 8).map (fun i => (n / 256 ^ i) % 256)

/-- The eight-byte big-endian encoding of `n`. -/
def be8 (n : Nat) : List Nat := (le8 n).reverse

/-- Four little-endian bytes of a 32-bit word. -/
def le4 (n : Nat) : List Nat :=
  (List.range 4).map (fun i => (n / 256 ^ i) % 256)

/-- Four big-endian bytes of a 32-bit word. -/
def be4 (n : Nat) : List Nat := (le4 n).reverse

/-- MD5/SHA-1 message padding: `0x80`, zeros to 56 mod 64, then the 8-byte
bit length (little-endian for MD5, big-endian for SHA-1). -/
def padTail (len : Nat) : List Nat :=
  List.replicate ((120 - (len + 1) % 64) % 64) 0

/-! ### SHA-1 (FIPS 180-1), bytes-in / bytes-out -/

/-- SHA-1 round function selector. -/
def sha1F (i b c d : Nat) : Nat :=
  if i < 20 then (b &&& c) ||| (bnot32 b &&& d)
  else if i < 40 then (b ^^^ c) ^^^ d
  else if i < 60 then ((b &&& c) ||| (b &&& d)) ||| (c &&& d)
  else (b ^^^ c) ^^^ d

/-- SHA-1 round constant. -/
def sha1K (i : Nat) : Nat :=
  if i < 20 then 0x5A827999
  else if i < 40 then 0x6ED9EBA1
  else if i < 60 then 0x8F1BBCDC
  else 0xCA62C1D6

/-- Expand the sixteen 32-bit words of a chunk to eighty. -/
def sha1Expand (w16 : List Nat) : List Nat :=
  (List.range 80).foldl
    (fun acc t =>
      if t < 16 then acc ++ [w16.getD t 0]
      else acc ++ [rotl32 (((acc.getD (t - 3) 0) ^^^ (acc.getD (t - 8) 0)) ^^^
        ((acc.getD (t - 14) 0) ^^^ (acc.getD (t - 16) 0))) 1])
    []

/-- Process one 64-byte chunk of a SHA-1 computation. -/
def sha1Chunk (h : Nat × Nat × Nat × Nat × Nat) (chunk : List Nat) :
    Nat × Nat × Nat × Nat × Nat :=
  let w := sha1Expand ((chunks4 chunk).map beWord)
  let (h0, h1, h2, h3, h4) := h
  let st := (List.range 80).foldl
    (fun (st : Nat × Nat × Nat × Nat × Nat) i =>
      let (a, b, c, d, e) := st
      let temp := mask32 (rotl32 a 5 + sha1F i b c d + e + sha1K i + w.getD i 0)
      (temp, a, rotl32 b 30, c, d))
    (h0, h1, h2, h3, h4)
  let (a, b, c, d, e) := st
  (mask32 (h0 + a), mask32 (h1 + b), mask32 (h2 + c), mask32 (h3 + d),
   mask32 (h4 + e))

/-- SHA-1 digest of a byte list. -/
def sha1Bytes (msg : List Nat) : List Nat :=
  let padded := msg ++ [128] ++ padTail msg.length ++ be8 (8 * msg.length)
  let (h0, h1, h2, h3, h4) := (chunks64 padded).foldl sha1Chunk
    (0x67452301, 0xEFCDAB89, 0x98BADCFE, 0x10325476, 0xC3D2E1F0)
  be4 h0 ++ be4 h1 ++ be4 h2 ++ be4 h3 ++ be4 h4

/-- `hashlib.sha1(msg).hexdigest()`. -/
def sha1Hex (msg : List Nat) : String := bytesToHex (sha1Bytes msg)

/-! ### MD5 (RFC 1321), bytes-in / bytes-out -/

/-- The 64 MD5 sine-derived additive constants. -/
def md5K : List Nat :=
  [0xd76aa478, 0xe8c7b756, 0x242070db, 0xc1bdceee,
   0xf57c0faf, 0x4787c62a, 0xa8304613, 0xfd469501,
   0x698098d8, 0x8b44f7af, 0xffff5bb1, 0x895cd7be,
   0x6b901122, 0xfd987193, 0xa679438e, 0x49b40821,
   0xf61e2562, 0xc040b340, 0x265e5a51, 0xe9b6c7aa,
   0xd62f105d, 0x02441453, 0xd8a1e681, 0xe7d3fbc8,
   0x21e1cde6, 0xc33707d6, 0xf4d50d87, 0x455a14ed,
   0xa9e3e905, 0xfcefa3f8, 0x676f02d9, 0x8d2a4c8a,
   0xfffa3942, 0x8771f681, 0x6d9d6122, 0xfde5380c,
   0xa4beea44, 0x4bdecfa9, 0xf6bb4b60, 0xbebfbc70,
   0x289b7ec6, 0xeaa127fa, 0xd4ef3085, 0x04881d05,
   0xd9d4d039, 0xe6db99e5, 0x1fa27cf8, 0xc4ac5665,
   0xf4292244, 0x432aff97, 0xab9423a7, 0xfc93a039,
   0x655b59c3, 0x8f0ccc92, 0xffeff47d, 0x85845dd1,
   0x6fa87e4f, 0xfe2ce6e0, 0xa3014314, 0x4e0811a1,
   0xf7537e82, 0xbd3af235, 0x2ad7d2bb, 0xeb86d391]

/-- The 64 MD5 per-round left-rotation amounts. -/
def md5S : List Nat :=
  [7, 12, 17, 22, 7, 12, 17, 22, 7, 12, 17, 22, 7, 12, 17, 22,
   5, 9, 14, 20, 5, 9, 14, 20, 5, 9, 14, 20, 5, 9, 14, 20,
   4, 11, 16, 23, 4, 11, 16, 23, 4, 11, 16, 23, 4, 11, 16, 23,
   6, 10, 15, 21, 6, 10, 15, 21, 6, 10, 15, 21, 6, 10, 15, 21]

/-- MD5 round mixing function. -/
def md5F (i b c d : Nat) : Nat :=
  if i < 16 then (b &&& c) ||| (bnot32 b &&& d)
  else if i < 32 then (d &&& b) ||| (bnot32 d &&& c)
  else if i < 48 then (b ^^^ c) ^^^ d
  else c ^^^ (b ||| bnot32 d)

/-- MD5 message-word index for round `i`. -/
def md5G (i : Nat) : Nat :=
  if i < 16 then i
  else if i < 32 then (5 * i + 1) % 16
  else if i < 48 then (3 * i + 5) % 16
  else (7 * i) % 16

/-- Process one 64-byte chunk of an MD5 computation. -/
def md5Chunk (h : Nat × Nat × Nat × Nat) (chunk : List Nat) :
    Nat × Nat × Nat × Nat :=
  let m := (chunks4 chunk).map leWord
  let (a0, b0, c0, d0) := h
  let st := (List.range 64).foldl
    (fun (st : Nat × Nat × Nat × Nat) i =>
      let (a, b, c, d) := st
      let f := mask32 (md5F i b c d + a + md5K.getD i 0 + m.getD (md5G i) 0)
      (d, mask32 (b + rotl32 f (md5S.getD i 0)), b, c))
    (a0, b0, c0, d0)
  let (a, b, c, d) := st
  (mask32 (a0 + a), mask32 (b0 + b), mask32 (c0 + c), mask32 (d0 + d))

/-- MD5 digest of a byte list. -/
def md5Bytes (msg : List Nat) : List Nat :=
  let padded := msg ++ [128] ++ padTail msg.length ++ le8 (8 * msg.length)
  let (a, b, c, d) := (chunks64 padded).foldl md5Chunk
    (0x67452301, 0xefcdab89, 0x98badcfe, 0x10325476)
  le4 a ++ le4 b ++ le4 c ++ le4 d

/-- `hashlib.md5(msg).hexdigest()`. -/
def md5Hex (msg : List Nat) : String := bytesToHex (md5Bytes msg)

/-! ### `config.py` and `core/crypto_utils.py` -/

/-- The configuration values consumed by `calcular_hash_aluno`
(`config.MATRICULA`, `config.NOME_ALUNO`, `config.HASH_ALGORITHM`). -/
structure Config where
  matricula : String
  nome_aluno : String
  hash_algorithm : String
deriving DecidableEq

/-- The configuration shipped in the repository's `config.py`. -/
def repoConfig : Config :=
  { matricula := "5217"
    nome_aluno := "Marina Conrado Moreira Santos"
    hash_algorithm := "sha1" }

/-- `crypto_utils.calcular_hash_aluno` called with its defaults (the
configured id, name and algorithm): validates the inputs, raising
`ValueError` (modelled as `Except.error`) on bad input, and otherwise
returns the hex digest of `"<matricula> <nome_aluno>"` under the
configured algorithm. -/
def calcular_hash_aluno (cfg : Config) : Except String String :=
  if cfg.matricula = "" ∨ cfg.nome_aluno = "" then
    .error "Matrícula e nome do aluno são obrigatórios"
  else if cfg.matricula.length ≠ 4 ∨ ¬ pyIsDigitStr cfg.matricula then
    .error "Matrícula deve ter exatamente 4 dígitos numéricos"
  else if cfg.hash_algorithm ∉ ["md5", "sha1"] then
    .error "Algoritmo deve ser \x27md5\x27 ou \x27sha1\x27"
  else
    let dados := cfg.matricula ++ " " ++ cfg.nome_aluno
    if cfg.hash_algorithm = "md5" then .ok (md5Hex (utf8Encode dados))
    else .ok (sha1Hex (utf8Encode dados))

/-- `crypto_utils.gerar_custom_id`: the expected `X-Custom-ID` value. -/
def gerar_custom_id (cfg : Config) : Except String String :=
  calcular_hash_aluno cfg

/-- `crypto_utils.validar_custom_id`: recompute the expected token and
compare for plain string equality (exceptions from the recomputation
propagate). -/
def validar_custom_id (cfg : Config) (custom_id : String) :
    Except String Bool :=
  (gerar_custom_id cfg).map (fun expected_id => custom_id == expected_id)

/-- The identity token of the repository configuration:
the SHA-1 hex digest of `"5217 Marina Conrado Moreira Santos"`. -/
def repoToken : String :=
  sha1Hex (utf8Encode ("5217" ++ " " ++ "Marina Conrado Moreira Santos"))

/-! ### `core/http_utils.py`: request parsing -/

/-- The fields of `http_utils.HTTPRequest` after `__init__`/`_parse_request`
has run.  `method`, `path`, `version` and `body` start as Python `None`
(`Option.none`); `headers` is the header dict in insertion order. -/
structure HTTPRequest where
  raw_request : String
  method : Option String
  path : Option String
  version : Option String
  headers : List (String × String)
  body : Option String
  valid : Bool
  custom_id_valid : Bool
deriving DecidableEq

/-- The header-dict accumulation loop of `_parse_request`: every header
line containing a colon is split at the first colon, the key is trimmed
and lower-cased, the value trimmed, and stored with dict semantics
(duplicate keys: last write wins). -/
def parseHeaderLines (hls : List String) : List (String × String) :=
  hls.foldl
    (fun d hl =>
      if hl.data.contains ':' then
        let kv := pySplitColon1 hl
        dictInsert d (pyLower (pyStrip kv.1)) (pyStrip kv.2)
      else d)
    []

/-- The state of `_parse_request` just before the `X-Custom-ID`
validation step (all fields of the eventual request except
`custom_id_valid`, still at its initial `false`): split the raw text on
CRLF; the stripped first line is whitespace-split into method
(upper-cased)/path/version when it has at least 3 tokens; header lines
run until the first blank line; the remainder (re-joined with CRLF) is
the body; structural validity requires the (upper-cased) method to be one
of GET/POST/HEAD and truthy path/version. -/
def parsePre (raw : String) : HTTPRequest :=
  let lines := pySplitCRLF raw
  let request_line := pyStrip (lines.headD "")
  let parts := pySplitWs request_line
  let method : Option String :=
    if 3 ≤ parts.length then some (pyUpper (parts.getD 0 "")) else none
  let path : Option String :=
    if 3 ≤ parts.length then some (parts.getD 1 "") else none
  let version : Option String :=
    if 3 ≤ parts.length then some (parts.getD 2 "") else none
  let tailLines := lines.tail
  let header_lines := tailLines.takeWhile (fun l => pyStrip l ≠ "")
  -- `body_start` is 0 when no blank line exists, else the overall index

  -- just past the first blank line
  let body_start : Nat :=
    if header_lines.length < tailLines.length then header_lines.length + 2
    else 0
  let headers := parseHeaderLines header_lines
  let body : Option String :=
    if body_start < lines.length then
      some (joinCRLF (lines.drop body_start))
    else none
  let valid : Bool :=
    (match method with
     | some m => m == "GET" || m == "POST" || m == "HEAD"
     | none => false) && pyTruthyOpt path && pyTruthyOpt version
  { raw_request := raw, method, path, version, headers, body,
    valid, custom_id_valid := false }

/-- `HTTPRequest.__init__`/`_parse_request`, one total function: the
parse state of `parsePre` followed by the `x-custom-id` validation.  The
`try/except` of the source catches the one fallible step (token
recomputation, which raises when the configuration is invalid) and
forces `valid := false`, leaving `custom_id_valid` at its initial
`false`. -/
def parseRequest (cfg : Config) (raw : String) : HTTPRequest :=
  let r := parsePre raw
  match r.headers.lookup "x-custom-id" with
  | none => r
  | some v =>
    match validar_custom_id cfg v with
    | .ok b => { r with custom_id_valid := b }
    | .error _ => { r with valid := false, custom_id_valid := false }

/-- `HTTPRequest.is_valid`: structural validity and token validity. -/
def HTTPRequest.is_valid (r : HTTPRequest) : Bool :=
  r.valid && r.custom_id_valid

/-- `HTTPRequest.get_custom_id_status`. -/
def HTTPRequest.custom_id_status (r : HTTPRequest) : String :=
  if (r.headers.lookup "x-custom-id").isNone then "MISSING"
  else if r.custom_id_valid then "VALID"
  else "INVALID"

/-! ### `core/http_utils.py`: responses

Response bodies whose exact text depends on wall-clock values
(`time.time()`, uptime, `strftime`) cannot be rendered as exact strings;
those bodies are represented by a constructor carrying the data the
template interpolates.  Bodies that are exact (echoed text, the `/hash`
JSON object, the emptied HEAD body) are represented exactly. -/

/-- JSON values occurring in the `/hash` response object. -/
inductive JV
  | s (v : String)
  | n (v : Nat)
deriving DecidableEq

/-- A response body. -/
inductive BodyVal
  /-- A plain text body set through `set_body` (echo, emptied HEAD body). -/
  | text (s : String)
  /-- A JSON object body set through `set_json_body` (the `/hash`
  endpoint), as its ordered key/value pairs. -/
  | json (fields : List (String × JV))
  /-- The fixed HTML template of `create_error_response`, carrying the
  interpolated status code and optional message. -/
  | errorHtml (code : Nat) (msg : Option String)
  /-- The `GET /` HTML template, carrying the interpolated request counter
  and uptime. -/
  | indexPage (served : Nat) (uptime : ℚ)
  /-- The `GET /status` JSON object, carrying its wall-clock-dependent
  values (uptime, requests served, timestamp). -/
  | statusPage (uptime : ℚ) (served : Nat) (ts : ℚ)
  /-- The `GET /info` JSON object, carrying the computed identity token. -/
  | infoPage (token : String)
  /-- The `GET /time` JSON object, carrying timestamp and uptime. -/
  | timePage (ts : ℚ) (uptime : ℚ)
deriving DecidableEq

/-- `http_utils.HTTPResponse`. -/
structure HTTPResponse where
  status_code : Nat
  status_message : String
  headers : List (String × String)
  body : BodyVal
deriving DecidableEq

/-- Ambient data of a single request handling: the `Date` header value the
response constructor would format, and the current wall-clock instant. -/
structure Env where
  dateStr : String
  now : ℚ
deriving DecidableEq

/-- The default header dict of `HTTPResponse.__init__`. -/
def initHeaders (dateStr : String) : List (String × String) :=
  [("Server", "Python-Web-Server/1.0"), ("Date", dateStr),
   ("Connection", "close"), ("Content-Type", "text/html; charset=utf-8")]

/-- `HTTPResponse.set_body` for an exact text body: assigns the body and
sets `Content-Type` and `Content-Length` (UTF-8 byte count). -/
def setTextBody (r : HTTPResponse) (content ctype : String) : HTTPResponse :=
  { r with
    body := .text content
    headers := dictInsert (dictInsert r.headers "Content-Type" ctype)
      "Content-Length" (toString (utf8Encode content).length) }

/-- `HTTPResponse.set_json_body` for the `/hash` object: assigns the JSON
body and sets `Content-Type`.  The `Content-Length` of the serialized JSON
text is not modelled (no claim reads it). -/
def setJsonBody (r : HTTPResponse) (fields : List (String × JV)) :
    HTTPResponse :=
  { r with
    body := .json fields
    headers := dictInsert r.headers "Content-Type"
      "application/json; charset=utf-8" }

/-- Assign one of the template bodies (HTML page or wall-clock-dependent
JSON).  `Content-Type` is set as the corresponding `set_body` /
`set_json_body` call does; the serialized `Content-Length` is not
modelled. -/
def setTemplateBody (r : HTTPResponse) (b : BodyVal) (ctype : String) :
    HTTPResponse :=
  { r with
    body := b
    headers := dictInsert r.headers "Content-Type" ctype }

/-- The status-message table of `create_error_response`. -/
def statusMessage (code : Nat) : String :=
  if code = 400 then "Bad Request"
  else if code = 401 then "Unauthorized"
  else if code = 403 then "Forbidden"
  else if code = 404 then "Not Found"
  else if code = 405 then "Method Not Allowed"
  else if code = 500 then "Internal Server Error"
  else "Unknown Error"

/-- `http_utils.create_error_response`: an `HTTPResponse` with the looked
up status message and the fixed error HTML template as body. -/
def create_error_response (env : Env) (code : Nat) (msg : Option String) :
    HTTPResponse :=
  setTemplateBody
    { status_code := code, status_message := statusMessage code,
      headers := initHeaders env.dateStr, body := .text "" }
    (.errorHtml code msg) "text/html; charset=utf-8"

/-- `http_utils.create_success_response` specialised to the template
bodies produced by the handlers. -/
def create_success_template (env : Env) (b : BodyVal) (ctype : String) :
    HTTPResponse :=
  setTemplateBody
    { status_code := 200, status_message := "OK",
      headers := initHeaders env.dateStr, body := .text "" }
    b ctype

/-! ### `core/server_handlers.py` -/

/-- The mutable state of the `HTTPHandlers` singleton. -/
structure HState where
  requests_served : Nat
  start_time : ℚ
deriving DecidableEq

/-- `HTTPHandlers.handle_get`.  Increments `requests_served`, then serves
`/`, `/status`, `/info`, `/time` or a 404.  Under the repository
configuration `gerar_custom_id` succeeds (theorem `calcular_repo_ok`
below), so the `/info` branch uses its value `repoToken` directly. -/
def handle_get (env : Env) (st : HState) (req : HTTPRequest) :
    HState × HTTPResponse :=
  let st := { st with requests_served := st.requests_served + 1 }
  let up := env.now - st.start_time
  if req.path = some "/" then
    (st, create_success_template env (.indexPage st.requests_served up)
      "text/html; charset=utf-8")
  else if req.path = some "/status" then
    (st, setTemplateBody
      { status_code := 200, status_message := "OK",
        headers := initHeaders env.dateStr, body := .text "" }
      (.statusPage up st.requests_served env.now)
      "application/json; charset=utf-8")
  else if req.path = some "/info" then
    (st, setTemplateBody
      { status_code := 200, status_message := "OK",
        headers := initHeaders env.dateStr, body := .text "" }
      (.infoPage repoToken) "application/json; charset=utf-8")
  else if req.path = some "/time" then
    (st, setTemplateBody
      { status_code := 200, status_message := "OK",
        headers := initHeaders env.dateStr, body := .text "" }
      (.timePage env.now up) "application/json; charset=utf-8")
  else
    (st, create_error_response env 404
      (some ("Path \x27" ++ pyShowOpt req.path ++ "\x27 não encontrado")))

/-- `HTTPHandlers.handle_post`.  Increments `requests_served`, then serves
`/echo` (body echoed verbatim as `text/plain`, 400 on empty body),
`/hash` (JSON object with `input`, `md5`, `sha1`, `length`, 400 on empty
body) or a 405. -/
def handle_post (env : Env) (st : HState) (req : HTTPRequest) :
    HState × HTTPResponse :=
  let st := { st with requests_served := st.requests_served + 1 }
  if req.path = some "/echo" then
    if pyTruthyOpt req.body then
      (st, setTextBody
        { status_code := 200, status_message := "OK",
          headers := initHeaders env.dateStr, body := .text "" }
        ((req.body).getD "") "text/plain; charset=utf-8")
    else
      (st, create_error_response env 400 (some "Corpo da requisição vazio"))
  else if req.path = some "/hash" then
    if ¬ pyTruthyOpt req.body then
      (st, create_error_response env 400
        (some "Corpo da requisição necessário para calcular hash"))
    else
      let b := (req.body).getD ""
      (st, setJsonBody
        { status_code := 200, status_message := "OK",
          headers := initHeaders env.dateStr, body := .text "" }
        [("input", .s b), ("md5", .s (md5Hex (utf8Encode b))),
         ("sha1", .s (sha1Hex (utf8Encode b))), ("length", .n b.length)])
  else
    (st, create_error_response env 405
      (some ("Método POST não suportado para \x27" ++ pyShowOpt req.path
        ++ "\x27")))

/-- The path table of `handle_head`. -/
def headKnownPaths : List (Option String) :=
  [some "/", some "/status", some "/info", some "/time"]

/-- `HTTPHandlers.handle_head`.  Increments `requests_served`; for the
four known paths it delegates to `handle_get` (which increments the
counter again) and then empties the body and forces `Content-Length: 0`;
otherwise a 404 with emptied body. -/
def handle_head (env : Env) (st : HState) (req : HTTPRequest) :
    HState × HTTPResponse :=
  let st := { st with requests_served := st.requests_served + 1 }
  if req.path ∈ headKnownPaths then
    let p := handle_get env st req
    (p.1, { p.2 with
      body := .text ""
      headers := dictInsert p.2.headers "Content-Length" "0" })
  else
    let r := create_error_response env 404
      (some ("Path \x27" ++ pyShowOpt req.path ++ "\x27 não encontrado"))
    (st, { r with
      body := .text ""
      headers := dictInsert r.headers "Content-Length" "0" })

/-- `HTTPHandlers.process_request`: dispatch on the request method.  The
`except` branch of the source (handler exception mapped to 500) is dead
under the repository configuration, whose only potentially raising
handler step — the `/info` token recomputation — succeeds. -/
def process_request (env : Env) (st : HState) (req : HTTPRequest) :
    HState × HTTPResponse :=
  if req.method = some "GET" then handle_get env st req
  else if req.method = some "POST" then handle_post env st req
  else if req.method = some "HEAD" then handle_head env st req
  else
    (st, create_error_response env 405
      (some ("Método \x27" ++ pyShowOpt req.method ++ "\x27 não suportado")))

/-! ### `server/sequential_server.py` / `server/concurrent_server.py`:
per-connection dispatch (`_handle_client`) -/

/-- The per-server counters touched by `_handle_client` (the concurrent
variant updates `requests_processed` under `stats_lock`; a single
invocation is modelled). -/
structure SState where
  requests_processed : Nat
  errors_count : Nat
deriving DecidableEq

/-- `_handle_client` after the request bytes have been received (both
server variants run the same logic): an empty receive returns without a
response; otherwise the request is parsed, a structurally invalid request
is answered 400, a structurally valid request with invalid/missing token
is answered 401, and a fully valid request is dispatched through
`process_request`, incrementing `requests_processed`. -/
def handle_client (env : Env) (cfg : Config) (ss : SState) (hs : HState)
    (raw : String) : SState × HState × Option HTTPResponse :=
  if raw = "" then (ss, hs, none)
  else
    let req := parseRequest cfg raw
    if ¬ req.is_valid then
      if ¬ req.valid then
        (ss, hs, some (create_error_response env 400
          (some "Requisição HTTP inválida")))
      else if ¬ req.custom_id_valid then
        (ss, hs, some (create_error_response env 401
          (some "X-Custom-ID inválido ou ausente")))
      else
        (ss, hs, some (create_error_response env 400
          (some "Requisição inválida")))
    else
      let p := process_request env hs req
      ({ ss with requests_processed := ss.requests_processed + 1 },
       p.1, some p.2)

/-! ### `tests/metrics.py` -/

/-- `metrics.RequestMetrics` (one per completed request). -/
structure RequestMetrics where
  request_id : Nat
  start_time : ℚ
  end_time : ℚ
  response_time : ℚ
  status_code : Nat
  success : Bool
  server_type : String
deriving DecidableEq

/-- Insert into a sorted list (ascending). -/
def insertSorted (x : ℚ) : List ℚ → List ℚ
  | [] => [x]
  | y :: ys => if x ≤ y then x :: y :: ys else y :: insertSorted x ys

/-- Python `sorted` on rationals (insertion sort). -/
def sortQ (xs : List ℚ) : List ℚ := xs.foldr insertSorted []

/-- `statistics.mean` (call sites guard non-emptiness). -/
def pyMean (xs : List ℚ) : ℚ := xs.sum / (xs.length : ℚ)

/-- `statistics.median`: middle element of the sorted data, or the average
of the two middle elements. -/
def pyMedian (xs : List ℚ) : ℚ :=
  let s := sortQ xs
  let n := s.length
  if n % 2 = 1 then s.getD (n / 2) 0
  else ((s.getD (n / 2 - 1) 0) + s.getD (n / 2) 0) / 2

/-- The value carried by the model of `statistics.stdev`: the (n−1)-sample
variance.  Python returns its square root as a float; the square root is
irrational, no claim depends on the numeric value of a standard-deviation
field, and only *when* `statistics.stdev` raises matters, so the model
carries the variance. -/
def pyVariance (xs : List ℚ) : ℚ :=
  let m := pyMean xs
  ((xs.map (fun x => (x - m) ^ 2)).sum) / ((xs.length : ℚ) - 1)

/-- `statistics.stdev` with its raising behaviour: a `StatisticsError` for
fewer than two data points. -/
def pyStdevE (xs : List ℚ) : Except String ℚ :=
  if 2 ≤ xs.length then .ok (pyVariance xs)
  else .error "stdev requires at least two data points"

/-- Python `min` over a non-empty list (`0` on `[]`; call sites guard). -/
def listMin (xs : List ℚ) : ℚ :=
  match xs with
  | [] => 0
  | x :: t => t.foldl min x

/-- Python `max` over a non-empty list (`0` on `[]`; call sites guard). -/
def listMax (xs : List ℚ) : ℚ :=
  match xs with
  | [] => 0
  | x :: t => t.foldl max x

/-- CPython `statistics.quantiles(data, n=n)` (default `method`, the
"exclusive" rank-based interpolation): on the sorted data of size `ld`
with `m = ld + 1`, cut value `i ∈ [1, n-1]` interpolates between the
ranks around `i·m/n`, with the index clamped into `[1, ld-1]`.  CPython
raises for `ld < 2`; every call site here is guarded by `ld ≥ 20`. -/
def quantilesExc (data : List ℚ) (n : Nat) : List ℚ :=
  let s := sortQ data
  let ld := s.length
  let m := ld + 1
  (List.range (n - 1)).map (fun i0 =>
    let i := i0 + 1
    let j := min (max (i * m / n) 1) (ld - 1)
    let delta : ℤ := (i * m : ℤ) - (j * n : ℤ)
    ((s.getD (j - 1) 0) * ((n : ℚ) - (delta : ℚ)) +
      (s.getD j 0) * (delta : ℚ)) / (n : ℚ))

/-- The metrics dictionary assembled by
`PerformanceMetrics.calculate_metrics` (with the fields added by
`_calculate_advanced_metrics`), as a record.  The `analysis_timestamp`
entry (a wall-clock string) is not modelled.  In the empty-sample case the
Python dict carries only a subset of these keys; the record represents the
absent entries as zeros. -/
structure Metrics where
  total_requests : Nat
  successful_requests : Nat
  failed_requests : Nat
  test_duration_seconds : ℚ
  success_rate : ℚ
  error_rate : ℚ
  mean_latency_seconds : ℚ
  mean_latency_ms : ℚ
  median_latency_seconds : ℚ
  median_latency_ms : ℚ
  latency_std_seconds : ℚ
  latency_std_ms : ℚ
  min_latency_seconds : ℚ
  min_latency_ms : ℚ
  max_latency_seconds : ℚ
  max_latency_ms : ℚ
  latency_p95_seconds : ℚ
  latency_p99_seconds : ℚ
  throughput_rps : ℚ
  throughput_rpm : ℚ
  successful_throughput_rps : ℚ
  mean_service_time_seconds : ℚ
  service_time_std_seconds : ℚ
  latency_cov : ℚ
  server_type : String
  server_efficiency : ℚ
  processing_rate : ℚ
  performance_index : ℚ
deriving DecidableEq

/-- `PerformanceMetrics._empty_metrics` (keys it does not emit are 0). -/
def emptyMetrics : Metrics :=
  { total_requests := 0, successful_requests := 0, failed_requests := 0,
    test_duration_seconds := 0, success_rate := 0, error_rate := 0,
    mean_latency_seconds := 0, mean_latency_ms := 0,
    median_latency_seconds := 0, median_latency_ms := 0,
    latency_std_seconds := 0, latency_std_ms := 0,
    min_latency_seconds := 0, min_latency_ms := 0,
    max_latency_seconds := 0, max_latency_ms := 0,
    latency_p95_seconds := 0, latency_p99_seconds := 0,
    throughput_rps := 0, throughput_rpm := 0,
    successful_throughput_rps := 0, mean_service_time_seconds := 0,
    service_time_std_seconds := 0, latency_cov := 0,
    server_type := "unknown", server_efficiency := 0,
    processing_rate := 0, performance_index := 0 }

/-- The coefficient-of-variation entry of the metrics dictionary: the
only expression of `calculate_metrics` that can raise.  Its guard checks
non-emptiness and a positive mean but not the two-point minimum of
`statistics.stdev`. -/
def covEOf (latencies : List ℚ) : Except String ℚ :=
  if latencies ≠ [] ∧ 0 < pyMean latencies then
    (pyStdevE latencies).map (fun sd => sd / pyMean latencies)
  else .ok 0

/-- The (pure) metrics dictionary assembled by `calculate_metrics` for a
non-empty sample list, given the already-computed coefficient of
variation `cov`. -/
def metricsRecord (reqs : List RequestMetrics) (test_duration : ℚ)
    (cov : ℚ) : Metrics :=
  let total := reqs.length
  let succReqs := reqs.filter (fun r => r.success)
  let successful := succReqs.length
  let failed := total - successful
  let latencies := reqs.map (fun r => r.response_time)
  let successful_latencies := succReqs.map (fun r => r.response_time)
  let mean_latency :=
    if latencies ≠ [] then pyMean latencies else 0
  let mean_latency_ms :=
    if latencies ≠ [] then pyMean latencies * 1000 else 0
  let throughput :=
    if 0 < test_duration then (total : ℚ) / test_duration else 0
  { total_requests := total
    successful_requests := successful
    failed_requests := failed
    test_duration_seconds := test_duration
    success_rate :=
      if 0 < total then (successful : ℚ) / (total : ℚ) else 0
    error_rate :=
      if 0 < total then (failed : ℚ) / (total : ℚ) else 0
    mean_latency_seconds := mean_latency
    mean_latency_ms := mean_latency_ms
    median_latency_seconds :=
      if latencies ≠ [] then pyMedian latencies else 0
    median_latency_ms :=
      if latencies ≠ [] then pyMedian latencies * 1000 else 0
    latency_std_seconds :=
      if 1 < latencies.length then pyVariance latencies else 0
    latency_std_ms :=
      if 1 < latencies.length then pyVariance latencies * 1000 else 0
    min_latency_seconds :=
      if latencies ≠ [] then listMin latencies else 0
    min_latency_ms :=
      if latencies ≠ [] then listMin latencies * 1000 else 0
    max_latency_seconds :=
      if latencies ≠ [] then listMax latencies else 0
    max_latency_ms :=
      if latencies ≠ [] then listMax latencies * 1000 else 0
    latency_p95_seconds :=
      if 20 ≤ latencies.length then (quantilesExc latencies 20).getD 18 0
      else if latencies ≠ [] then listMax latencies else 0
    latency_p99_seconds :=
      if 100 ≤ latencies.length then (quantilesExc latencies 100).getD 98 0
      else if latencies ≠ [] then listMax latencies else 0
    throughput_rps := throughput
    throughput_rpm :=
      if 0 < test_duration then
        (total : ℚ) / test_duration * 60 else 0
    successful_throughput_rps :=
      if 0 < test_duration then
        (successful : ℚ) / test_duration else 0
    mean_service_time_seconds :=
      if successful_latencies ≠ [] then pyMean successful_latencies
      else 0
    service_time_std_seconds :=
      if 1 < successful_latencies.length then
        pyVariance successful_latencies else 0
    latency_cov := cov
    server_type :=
      match reqs with
      | r :: _ => r.server_type
      | [] => "unknown"
    server_efficiency :=
      if 0 < mean_latency then throughput / mean_latency else 0
    processing_rate :=
      if 0 < mean_latency then throughput * (1 / mean_latency) else 0
    performance_index :=
      if 0 < mean_latency_ms then throughput / mean_latency_ms else 0 }

/-- `PerformanceMetrics.calculate_metrics` (including
`_calculate_advanced_metrics`): empty sample lists short-circuit to the
empty dictionary; otherwise the coefficient-of-variation entry is
computed first (it is the single fallible expression of the whole
computation, and a raise aborts the dictionary construction as in the
source) and the pure record is assembled around its value. -/
def calculate_metrics (reqs : List RequestMetrics) (test_duration : ℚ) :
    Except String Metrics :=
  if reqs.isEmpty then .ok emptyMetrics
  else
    match covEOf (reqs.map (fun r => r.response_time)) with
    | .error e => .error e
    | .ok cov => .ok (metricsRecord reqs test_duration cov)

/-! ### Derived predicates and concrete inputs used by the theorems -/

/-- The structural-validity value actually computed by `_parse_request`
(when token recomputation does not raise): at least 3 whitespace tokens on
the stripped first line and the **upper-cased** first token among
GET/POST/HEAD (the second and third tokens of a whitespace split are
never empty). -/
def structValidBool (raw : String) : Bool :=
  let parts := pySplitWs (pyStrip ((pySplitCRLF raw).headD ""))
  if 3 ≤ parts.length then
    (pyUpper (parts.getD 0 "") == "GET" || pyUpper (parts.getD 0 "") == "POST"
      || pyUpper (parts.getD 0 "") == "HEAD")
    && (parts.getD 1 "" ≠ "") && (parts.getD 2 "" ≠ "")
  else false

/-- Modelled from the claim wording (not from the source): structural
validity as "the first CRLF-separated line splits on whitespace into at
least 3 tokens, the first token (the method) is one of GET, POST, HEAD,
and the path and version tokens are non-empty".  Used to compare the
claimed characterisation with the parser's actual one. -/
def claimStructValid (raw : String) : Bool :=
  let parts := pySplitWs (pyStrip ((pySplitCRLF raw).headD ""))
  3 ≤ parts.length
    && (parts.getD 0 "" == "GET" || parts.getD 0 "" == "POST"
      || parts.getD 0 "" == "HEAD")
    && (parts.getD 1 "" ≠ "") && (parts.getD 2 "" ≠ "")

/-- A fixed ambient environment for concrete evaluations. -/
def env0 : Env := ⟨"Thu, 01 Jan 1970 00:00:00 GMT", 0⟩

/-- Fresh handler state. -/
def hs0 : HState := ⟨0, 0⟩

/-- Fresh server counters. -/
def ss0 : SState := ⟨0, 0⟩

/-- A hand-built dispatched request (structurally valid and
authenticated) with the given method, path and body. -/
def demoReq (m p : String) (b : Option String) : HTTPRequest :=
  { raw_request := "", method := some m, path := some p,
    version := some "HTTP/1.1", headers := [], body := b,
    valid := true, custom_id_valid := true }

/-- A raw request carrying the correct identity token. -/
def rawToken : String :=
  "GET / HTTP/1.1\r\nX-Custom-ID: " ++ repoToken ++ "\r\n\r\n"

/-- A structurally valid raw request with no identity header. -/
def rawNoToken : String := "GET / HTTP/1.1\r\n\r\n"

/-- A malformed raw request (one-token request line, no identity header). -/
def rawBadLine : String := "BAD\r\n\r\n"

/-- A raw request whose method token is lower-case. -/
def rawLowerGet : String := "get / HTTP/1.1\r\n\r\n"

/-- A malformed raw request that nevertheless carries an identity header. -/
def rawBadLineWithHeader : String := "BAD\r\nX-Custom-ID: abc\r\n\r\n"

/-- A configuration with a 4-digit id but an empty name. -/
def cfgEmptyName : Config := ⟨"5217", "", "sha1"⟩

/-- A configuration whose numeric identifier has only 2 digits. -/
def cfgBadId : Config := ⟨"12", "x", "sha1"⟩

/-- Two request samples (positive latencies 1/10 and 3/10). -/
def demoReqs : List RequestMetrics :=
  [⟨1, 0, 1/10, 1/10, 200, true, "sequential"⟩,
   ⟨2, 0, 3/10, 3/10, 200, true, "sequential"⟩]

/-- One single request sample with positive latency. -/
def singleReq : List RequestMetrics := [⟨1, 0, 1, 1, 200, true, "sequential"⟩]

/-- The metrics record computed on `demoReqs` over a 1-second window. -/
def demoM : Metrics := (calculate_metrics demoReqs 1).toOption.getD emptyMetrics

/-- The metrics record computed on `demoReqs` over a zero-length window. -/
def demoM0 : Metrics := (calculate_metrics demoReqs 0).toOption.getD emptyMetrics

/-! ## Theorems -/

set_option maxRecDepth 100000

/-- Under the repository configuration the token computation succeeds and
yields the SHA-1 digest of `"5217 Marina Conrado Moreira Santos"`. -/
theorem calcular_repo_ok : calcular_hash_aluno repoConfig = .ok repoToken := by
  rfl

/-- Under the repository configuration `validar_custom_id` never raises
and is plain equality with the expected token. -/
theorem validar_repo_ok (c : String) :
    validar_custom_id repoConfig c = .ok (c == repoToken) := by
  unfold validar_custom_id gerar_custom_id
  rw [calcular_repo_ok]
  rfl

/-- Parsing the empty string yields a structurally invalid request,
whatever the configuration. -/
theorem parse_empty_invalid (cfg : Config) :
    (parseRequest cfg "").valid = false := by
  rfl

/-- The validity flag of the pre-validation parse state is exactly
`structValidBool`. -/
theorem parsePre_valid (raw : String) :
    (parsePre raw).valid = structValidBool raw := by
  unfold parsePre structValidBool
  dsimp only
  by_cases h3 : 3 ≤ (pySplitWs (pyStrip ((pySplitCRLF raw).headD ""))).length
  · simp only [if_pos h3]
    rfl
  · simp only [if_neg h3]
    rfl

/-- The header dict of the parsed request is the pre-validation one in
every branch of the token validation. -/
theorem parseRequest_headers (cfg : Config) (raw : String) :
    (parseRequest cfg raw).headers = (parsePre raw).headers := by
  unfold parseRequest
  dsimp only
  split
  · rfl
  · split <;> rfl

/-- The method field of the parsed request is the pre-validation one. -/
theorem parseRequest_method (cfg : Config) (raw : String) :
    (parseRequest cfg raw).method = (parsePre raw).method := by
  unfold parseRequest
  dsimp only
  split
  · rfl
  · split <;> rfl

/-- The path field of the parsed request is the pre-validation one. -/
theorem parseRequest_path (cfg : Config) (raw : String) :
    (parseRequest cfg raw).path = (parsePre raw).path := by
  unfold parseRequest
  dsimp only
  split
  · rfl
  · split <;> rfl

/-- The version field of the parsed request is the pre-validation one. -/
theorem parseRequest_version (cfg : Config) (raw : String) :
    (parseRequest cfg raw).version = (parsePre raw).version := by
  unfold parseRequest
  dsimp only
  split
  · rfl
  · split <;> rfl

/-- A structurally invalid pre-parse stays invalid after validation
(the `except` branch only ever clamps `valid` to `false`). -/
theorem parseRequest_valid_false (cfg : Config) (raw : String)
    (h : (parsePre raw).valid = false) :
    (parseRequest cfg raw).valid = false := by
  unfold parseRequest
  dsimp only
  split
  · exact h
  · split
    · exact h
    · rfl

/-- Under the repository configuration the parser's validity flag is
exactly `structValidBool` (the token recomputation never raises, so the
`except` clamp to `false` is dead). -/
theorem parse_valid_repo (raw : String) :
    (parseRequest repoConfig raw).valid = structValidBool raw := by
  unfold parseRequest
  dsimp only
  split
  · exact parsePre_valid raw
  · next v heq =>
    rw [validar_repo_ok v]
    exact parsePre_valid raw

/-- The MD5 reference digest of `"abc"`. -/
theorem md5_abc :
    md5Hex (utf8Encode "abc") = "900150983cd24fb0d6963f7d28e17f72" := by
  decide

/-- The SHA-1 reference digest of `"abc"`. -/
theorem sha1_abc :
    sha1Hex (utf8Encode "abc") = "a9993e364706816aba3e25717850c26c9cd0d89d" := by
  decide

/-- `handle_get` increments `requests_served` exactly once. -/
theorem handle_get_fst (env : Env) (st : HState) (req : HTTPRequest) :
    (handle_get env st req).1 =
      { st with requests_served := st.requests_served + 1 } := by
  unfold handle_get
  dsimp only
  split_ifs <;> rfl

/-- `handle_post` increments `requests_served` exactly once. -/
theorem handle_post_fst (env : Env) (st : HState) (req : HTTPRequest) :
    (handle_post env st req).1 =
      { st with requests_served := st.requests_served + 1 } := by
  unfold handle_post
  dsimp only
  split_ifs <;> rfl

/-- `handle_head` increments `requests_served` twice on the known paths
(its own increment plus the delegated `handle_get`'s), once otherwise. -/
theorem handle_head_fst (env : Env) (st : HState) (req : HTTPRequest) :
    (handle_head env st req).1 =
      { st with requests_served := st.requests_served +
          (if req.path ∈ headKnownPaths then 2 else 1) } := by
  unfold handle_head
  by_cases h : req.path ∈ headKnownPaths <;> simp [h, handle_get_fst]

/-- Every response `handle_get` produces has status 200 or 404. -/
theorem handle_get_status (env : Env) (st : HState) (req : HTTPRequest) :
    (handle_get env st req).2.status_code = 200 ∨
    (handle_get env st req).2.status_code = 404 := by
  unfold handle_get
  dsimp only
  split_ifs <;> simp [create_success_template, create_error_response,
    setTemplateBody]

/-- Every response `handle_post` produces has status 200, 400 or 405. -/
theorem handle_post_status (env : Env) (st : HState) (req : HTTPRequest) :
    (handle_post env st req).2.status_code = 200 ∨
    (handle_post env st req).2.status_code = 400 ∨
    (handle_post env st req).2.status_code = 405 := by
  unfold handle_post
  dsimp only
  split_ifs <;> simp [setTextBody, setJsonBody, create_error_response,
    setTemplateBody]

/-- Every response `handle_head` produces has status 200 or 404. -/
theorem handle_head_status (env : Env) (st : HState) (req : HTTPRequest) :
    (handle_head env st req).2.status_code = 200 ∨
    (handle_head env st req).2.status_code = 404 := by
  unfold handle_head
  dsimp only
  split_ifs with h
  · have := handle_get_status env
      { st with requests_served := st.requests_served + 1 } req
    simpa using this
  · simp [create_error_response, setTemplateBody]

/-- Every response `process_request` produces has status 200, 400, 404
or 405 (the 500 mapping of the source is dead under the repository
configuration, where no handler step raises). -/
theorem process_request_status (env : Env) (st : HState) (req : HTTPRequest) :
    (process_request env st req).2.status_code = 200 ∨
    (process_request env st req).2.status_code = 400 ∨
    (process_request env st req).2.status_code = 404 ∨
    (process_request env st req).2.status_code = 405 := by
  unfold process_request
  split_ifs
  · rcases handle_get_status env st req with h | h <;> simp [h]
  · rcases handle_post_status env st req with h | h | h <;> simp [h]
  · rcases handle_head_status env st req with h | h <;> simp [h]
  · simp [create_error_response, setTemplateBody]

/-- C1, counterexample: dispatching `HEAD /` increments the handlers'
`requests_served` counter twice (`handle_head` increments it and the
delegated `handle_get` increments it again), while the corresponding
`GET /` increments it once — refuting "a HEAD request to one of the known
paths increments it exactly once, the same as the corresponding GET". -/
theorem C1_counterexample :
    (process_request env0 hs0 (demoReq "HEAD" "/" none)).1.requests_served = 2 ∧
    (process_request env0 hs0 (demoReq "GET" "/" none)).1.requests_served = 1 := by
  constructor <;> rfl

/-- C1, amended: a dispatched GET or POST increments the handlers'
`requests_served` counter exactly once; a dispatched HEAD increments it
twice when the path is one of `/`, `/status`, `/info`, `/time` and once
otherwise; and the server-level shared `requests_processed` counter is
incremented exactly once per successfully dispatched (structurally valid
and authenticated) request. -/
theorem C1_amended :
    (∀ env st req, req.method = some "GET" ∨ req.method = some "POST" →
      (process_request env st req).1.requests_served =
        st.requests_served + 1) ∧
    (∀ env st req, req.method = some "HEAD" →
      (process_request env st req).1.requests_served = st.requests_served +
        (if req.path ∈ headKnownPaths then 2 else 1)) ∧
    (∀ env cfg ss hs raw, (parseRequest cfg raw).is_valid = true →
      (handle_client env cfg ss hs raw).1.requests_processed =
        ss.requests_processed + 1) := by
  refine ⟨?_, ?_, ?_⟩
  · rintro env st req (h | h) <;>
      simp [process_request, h, handle_get_fst, handle_post_fst]
  · intro env st req h
    simp [process_request, h, handle_head_fst]
  · intro env cfg ss hs raw hv
    have hne : raw ≠ "" := by
      intro he
      rw [he] at hv
      unfold HTTPRequest.is_valid at hv
      rw [parse_empty_invalid] at hv
      simp at hv
    simp [handle_client, hne, hv]

/-- C1, witness: the amended statement instantiated at `GET /status`,
`HEAD /status` and a raw authenticated request. -/
theorem C1_witness :
    (process_request env0 hs0 (demoReq "GET" "/status" none)).1.requests_served
      = hs0.requests_served + 1 ∧
    (process_request env0 hs0 (demoReq "HEAD" "/status" none)).1.requests_served
      = hs0.requests_served +
        (if (demoReq "HEAD" "/status" none).path ∈ headKnownPaths then 2
         else 1) ∧
    (handle_client env0 repoConfig ss0 hs0 rawToken).1.requests_processed =
      ss0.requests_processed + 1 :=
  ⟨C1_amended.1 env0 hs0 _ (Or.inl rfl), C1_amended.2.1 env0 hs0 _ rfl,
   C1_amended.2.2 env0 repoConfig ss0 hs0 rawToken (by decide)⟩

/-- C2, counterexample: the malformed request `"BAD\r\n\r\n"` carries no
identity token (its token status is MISSING), yet the server answers 400,
not 401 — structural invalidity is checked first, refuting "401 for every
method and every path (including malformed request lines)". -/
theorem C2_counterexample :
    ((handle_client env0 repoConfig ss0 hs0 rawBadLine).2.2.map
      (fun r => r.status_code)) = some 400 ∧
    (parseRequest repoConfig rawBadLine).custom_id_status = "MISSING" := by
  constructor <;> rfl

/-- C2, amended: a *structurally valid* request whose identity token is
missing or wrong is answered 401; a structurally invalid request is
answered 400 regardless of its token. -/
theorem C2_amended (env : Env) (cfg : Config) (ss : SState) (hs : HState)
    (raw : String) :
    ((parseRequest cfg raw).valid = true →
      (parseRequest cfg raw).custom_id_valid = false →
      ((handle_client env cfg ss hs raw).2.2.map (fun r => r.status_code)) =
        some 401) ∧
    (raw ≠ "" → (parseRequest cfg raw).valid = false →
      ((handle_client env cfg ss hs raw).2.2.map (fun r => r.status_code)) =
        some 400) := by
  constructor
  · intro hv hc
    have hne : raw ≠ "" := by
      intro he
      rw [he, parse_empty_invalid] at hv
      simp at hv
    simp [handle_client, hne, HTTPRequest.is_valid, hv, hc,
      create_error_response, setTemplateBody]
  · intro hne hv
    simp [handle_client, hne, HTTPRequest.is_valid, hv,
      create_error_response, setTemplateBody]

/-- C2, witness: a structurally valid request without the identity header
is answered 401. -/
theorem C2_witness :
    ((handle_client env0 repoConfig ss0 hs0 rawNoToken).2.2.map
      (fun r => r.status_code)) = some 401 :=
  (C2_amended env0 repoConfig ss0 hs0 rawNoToken).1 (by rfl) (by rfl)

/-- C3, counterexample: with a 4-digit numeric identifier but an empty
name, the token computation still raises — refuting "raises if and only
if the configured numeric identifier is not exactly 4 decimal digits". -/
theorem C3_counterexample :
    calcular_hash_aluno cfgEmptyName =
      .error "Matrícula e nome do aluno são obrigatórios" ∧
    cfgEmptyName.matricula.length = 4 ∧
    pyIsDigitStr cfgEmptyName.matricula = true :=
  ⟨rfl, rfl, rfl⟩

/-- C3, amended: the token computation raises exactly when the identifier
is empty, the name is empty, the identifier is not exactly 4 decimal
digits, or the algorithm is neither md5 nor sha1; when it returns a token
`t`, `validar_custom_id c` returns exactly the plain string equality
`c == t`. -/
theorem C3_amended (cfg : Config) :
    ((calcular_hash_aluno cfg).toOption = none ↔
      (cfg.matricula = "" ∨ cfg.nome_aluno = "") ∨
      (cfg.matricula.length ≠ 4 ∨ ¬ pyIsDigitStr cfg.matricula) ∨
      cfg.hash_algorithm ∉ (["md5", "sha1"] : List String)) ∧
    (∀ t c, calcular_hash_aluno cfg = .ok t →
      validar_custom_id cfg c = .ok (c == t)) := by
  constructor
  · unfold calcular_hash_aluno
    split_ifs with h1 h2 h3 h4
    · exact iff_of_true rfl (Or.inl h1)
    · exact iff_of_true rfl (Or.inr (Or.inl h2))
    · exact iff_of_false (by simp [Except.toOption])
        (fun h => h.elim h1 (fun hr => hr.elim h2 (fun hn => hn h3)))
    · exact iff_of_false (by simp [Except.toOption])
        (fun h => h.elim h1 (fun hr => hr.elim h2 (fun hn => hn h3)))
    · exact iff_of_true rfl (Or.inr (Or.inr h3))
  · intro t c h
    unfold validar_custom_id gerar_custom_id
    rw [h]
    rfl

/-- C3, witness: the repository configuration does not raise, and
validation of the candidate `"x"` is its string comparison with the
expected token. -/
theorem C3_witness :
    (calcular_hash_aluno repoConfig).toOption ≠ none ∧
    validar_custom_id repoConfig "x" = .ok ("x" == repoToken) := by
  constructor
  · intro h
    have hr := (C3_amended repoConfig).1.mp h
    revert hr
    decide
  · exact (C3_amended repoConfig).2 repoToken "x" calcular_repo_ok

/-- C4: every structurally valid, correctly authenticated raw request is
dispatched and answered with a status in {200, 400, 404, 405}, never
401. -/
theorem C4_status (env : Env) (cfg : Config) (ss : SState) (hs : HState)
    (raw : String)
    (hv : (parseRequest cfg raw).valid = true)
    (hc : (parseRequest cfg raw).custom_id_valid = true) :
    ∃ r, (handle_client env cfg ss hs raw).2.2 = some r ∧
      (r.status_code = 200 ∨ r.status_code = 400 ∨ r.status_code = 404 ∨
        r.status_code = 405) ∧ r.status_code ≠ 401 := by
  have hne : raw ≠ "" := by
    intro he
    rw [he, parse_empty_invalid] at hv
    simp at hv
  refine ⟨(process_request env hs (parseRequest cfg raw)).2, ?_, ?_, ?_⟩
  · simp [handle_client, hne, HTTPRequest.is_valid, hv, hc]
  · exact process_request_status env hs _
  · rcases process_request_status env hs (parseRequest cfg raw) with
      h | h | h | h <;> simp [h]

/-- C4, witness: the concrete authenticated `GET /` request. -/
theorem C4_witness :
    ∃ r, (handle_client env0 repoConfig ss0 hs0 rawToken).2.2 = some r ∧
      (r.status_code = 200 ∨ r.status_code = 400 ∨ r.status_code = 404 ∨
        r.status_code = 405) ∧ r.status_code ≠ 401 :=
  C4_status env0 repoConfig ss0 hs0 rawToken (by decide) (by decide)

/-- The coefficient-of-variation entry raises exactly on a one-element
latency list with positive mean. -/
theorem covEOf_none_iff (lat : List ℚ) :
    (covEOf lat).toOption = none ↔ lat.length = 1 ∧ 0 < pyMean lat := by
  unfold covEOf pyStdevE
  split_ifs with h1 h2
  · exact iff_of_false (by simp [Except.toOption, Except.map])
      (fun hl => by omega)
  · refine iff_of_true rfl ⟨?_, h1.2⟩
    have : 0 < lat.length := List.length_pos.mpr h1.1
    omega
  · refine iff_of_false (by simp [Except.toOption]) (fun hl => ?_)
    exact h1 ⟨by intro hnil; rw [hnil] at hl; simp at hl, hl.2⟩

/-- The metrics computation raises exactly on a one-sample list with
positive mean response time. -/
theorem calculate_metrics_none_iff (reqs : List RequestMetrics) (d : ℚ) :
    (calculate_metrics reqs d).toOption = none ↔
      reqs.length = 1 ∧
        0 < pyMean (reqs.map (fun r => r.response_time)) := by
  by_cases hne : reqs = []
  · subst hne
    simp [calculate_metrics, Except.toOption]
  · unfold calculate_metrics
    rw [if_neg (by simp [hne])]
    cases hcov : covEOf (reqs.map (fun r => r.response_time)) with
    | error e =>
      refine iff_of_true (by simp [Except.toOption]) ?_
      have hn := (covEOf_none_iff (reqs.map (fun r => r.response_time))).mp
        (by rw [hcov]; rfl)
      simpa [List.length_map] using hn
    | ok cov =>
      refine iff_of_false (by simp [Except.toOption]) (fun hr => ?_)
      have hn := (covEOf_none_iff (reqs.map (fun r => r.response_time))).mpr
        (by simpa [List.length_map] using hr)
      rw [hcov] at hn
      simp [Except.toOption] at hn

/-- A sample list whose length is not 1 always yields a metrics record. -/
theorem calculate_metrics_ok_of_len (reqs : List RequestMetrics) (d : ℚ)
    (h : reqs.length ≠ 1) : ∃ m, calculate_metrics reqs d = .ok m := by
  cases hcm : calculate_metrics reqs d with
  | error e =>
    have : (calculate_metrics reqs d).toOption = none := by rw [hcm]; rfl
    exact absurd ((calculate_metrics_none_iff reqs d).mp this).1 h
  | ok m => exact ⟨m, rfl⟩

/-- C5: whenever `calculate_metrics` reports on a non-empty sample list,
the 95th-percentile entry is the 19th of the 19 cut values of the
20-cut-point rank-based quantiles when at least 20 samples exist and the
maximum latency otherwise, and the 99th-percentile entry is the 99th of
the 99 cut values of the 100-cut-point quantiles when at least 100
samples exist and the maximum latency otherwise. -/
theorem C5_percentiles (reqs : List RequestMetrics) (d : ℚ) (m : Metrics)
    (h : calculate_metrics reqs d = .ok m) (hne : reqs ≠ []) :
    m.latency_p95_seconds =
      (if 20 ≤ reqs.length then
        (quantilesExc (reqs.map (fun r => r.response_time)) 20).getD 18 0
      else listMax (reqs.map (fun r => r.response_time))) ∧
    m.latency_p99_seconds =
      (if 100 ≤ reqs.length then
        (quantilesExc (reqs.map (fun r => r.response_time)) 100).getD 98 0
      else listMax (reqs.map (fun r => r.response_time))) := by
  unfold calculate_metrics at h
  rw [if_neg (by simp [hne])] at h
  cases hcov : covEOf (reqs.map (fun r => r.response_time)) with
  | error e => rw [hcov] at h; exact absurd h (by simp)
  | ok cov =>
    rw [hcov] at h
    injection h with h
    subst h
    have hmapne : reqs.map (fun r => r.response_time) ≠ [] := by
      simp [hne]
    constructor <;> simp [metricsRecord, List.length_map, hmapne]

/-- C5, witness: the two-sample list falls back to the maximum latency. -/
theorem C5_witness :
    demoM.latency_p95_seconds =
      (if 20 ≤ demoReqs.length then
        (quantilesExc (demoReqs.map (fun r => r.response_time)) 20).getD 18 0
      else listMax (demoReqs.map (fun r => r.response_time))) ∧
    demoM.latency_p99_seconds =
      (if 100 ≤ demoReqs.length then
        (quantilesExc (demoReqs.map (fun r => r.response_time)) 100).getD 98 0
      else listMax (demoReqs.map (fun r => r.response_time))) := by
  obtain ⟨m, hm⟩ := calculate_metrics_ok_of_len demoReqs 1 (by decide)
  have hdm : demoM = m := by unfold demoM; rw [hm]; rfl
  rw [hdm]
  exact C5_percentiles demoReqs 1 m hm (by decide)

/-- C6, counterexample: on a single sample with positive response time
the metrics computation raises (the coefficient-of-variation guard calls
`statistics.stdev` on one data point), refuting "the computation never
raises, for every input sample sequence". -/
theorem C6_counterexample :
    calculate_metrics singleReq 1 =
      .error "stdev requires at least two data points" := by
  have hmap : (singleReq.map fun r => r.response_time) = [(1 : ℚ)] := rfl
  have h1 : (0 : ℚ) < pyMean [(1 : ℚ)] := by norm_num [pyMean]
  have hcov : covEOf [(1 : ℚ)] =
      .error "stdev requires at least two data points" := by
    unfold covEOf
    rw [if_pos ⟨by simp, h1⟩]
    rfl
  unfold calculate_metrics
  rw [if_neg (by simp [singleReq]), hmap, hcov]

/-- C6, amended: every division of the metrics computation is guarded
(zero denominator means the metric is reported as 0), and the computation
raises exactly when the sample list has exactly one element with positive
mean response time (the coefficient-of-variation guard does not check the
two-point minimum of the sample standard deviation); on every other
input, including the empty one, it returns normally. -/
theorem C6_amended (reqs : List RequestMetrics) (d : ℚ) :
    ((calculate_metrics reqs d).toOption = none ↔
      reqs.length = 1 ∧
        0 < pyMean (reqs.map (fun r => r.response_time))) ∧
    (∀ m, calculate_metrics reqs d = .ok m →
      (d ≤ 0 → m.throughput_rps = 0 ∧ m.throughput_rpm = 0 ∧
        m.successful_throughput_rps = 0) ∧
      (reqs.map (fun r => r.response_time) = [] ∨
          pyMean (reqs.map (fun r => r.response_time)) ≤ 0 →
        m.latency_cov = 0) ∧
      (m.mean_latency_seconds ≤ 0 →
        m.server_efficiency = 0 ∧ m.processing_rate = 0) ∧
      (m.mean_latency_ms ≤ 0 → m.performance_index = 0) ∧
      (reqs = [] → m = emptyMetrics)) := by
  refine ⟨calculate_metrics_none_iff reqs d, ?_⟩
  by_cases hne : reqs = []
  · subst hne
    intro m h
    have hm : m = emptyMetrics := by
      simpa [calculate_metrics] using h.symm
    subst hm
    simp [emptyMetrics]
  · intro m h
    unfold calculate_metrics at h
    rw [if_neg (by simp [hne])] at h
    cases hcov : covEOf (reqs.map (fun r => r.response_time)) with
    | error e => rw [hcov] at h; exact absurd h (by simp)
    | ok cov =>
      rw [hcov] at h
      injection h with h
      subst h
      have hmapne : reqs.map (fun r => r.response_time) ≠ [] := by
        simp [hne]
      refine ⟨?_, ?_, ?_, ?_, fun he => absurd he hne⟩
      · intro hd
        have hnd : ¬ (0 < d) := not_lt.mpr hd
        simp [metricsRecord, hnd]
      · intro hl
        have hcond : ¬ (reqs.map (fun r => r.response_time) ≠ [] ∧
            0 < pyMean (reqs.map (fun r => r.response_time))) := by
          rcases hl with hl | hl
          · exact fun hx => hx.1 hl
          · exact fun hx => absurd hx.2 (not_lt.mpr hl)
        unfold covEOf at hcov
        rw [if_neg hcond] at hcov
        injection hcov with hcov
        simp [metricsRecord, ← hcov]
      · intro hm
        simp only [metricsRecord, if_pos hmapne] at hm ⊢
        have hnd := not_lt.mpr hm
        simp [hnd]
      · intro hm
        simp only [metricsRecord, if_pos hmapne] at hm ⊢
        have hnd := not_lt.mpr hm
        simp [hnd]

/-- C6, witness: the amended statement at the two-sample list over a
zero-length window — the computation returns and every
throughput/efficiency metric with a zero denominator is 0. -/
theorem C6_witness :
    demoM0.throughput_rps = 0 ∧ demoM0.throughput_rpm = 0 ∧
    demoM0.successful_throughput_rps = 0 := by
  obtain ⟨m, hm⟩ := calculate_metrics_ok_of_len demoReqs 0 (by decide)
  have hdm : demoM0 = m := by unfold demoM0; rw [hm]; rfl
  rw [hdm]
  exact ((C6_amended demoReqs 0).2 m hm).1 (le_refl 0)

/-- C7, counterexample: the request line `"get / HTTP/1.1"` is accepted
as structurally valid (the parser upper-cases the method token before
comparing), yet its first token `"get"` is not one of GET/POST/HEAD —
refuting the claimed "valid iff the first token is one of GET, POST,
HEAD". -/
theorem C7_counterexample :
    (parseRequest repoConfig rawLowerGet).valid = true ∧
    claimStructValid rawLowerGet = false := by
  constructor <;> rfl

/-- C7, amended: the parsed request is structurally valid iff the
stripped first CRLF-separated line splits on whitespace into at least 3
tokens, the **upper-cased** first token is one of GET, POST, HEAD, and
the path and version tokens are non-empty (automatic for a whitespace
split); in particular fewer than 3 tokens always leave the request
invalid. -/
theorem C7_amended (raw : String) :
    (parseRequest repoConfig raw).valid = true ↔
      (let parts := pySplitWs (pyStrip ((pySplitCRLF raw).headD ""))
       3 ≤ parts.length ∧
       pyUpper (parts.getD 0 "") ∈ (["GET", "POST", "HEAD"] : List String) ∧
       parts.getD 1 "" ≠ "" ∧ parts.getD 2 "" ≠ "") := by
  rw [parse_valid_repo]
  unfold structValidBool
  by_cases h3 :
      3 ≤ (pySplitWs (pyStrip ((pySplitCRLF raw).head?.getD ""))).length <;>
    simp [h3, and_assoc, or_assoc]

/-- C7, witness: the canonical request line is valid by the amended
characterisation. -/
theorem C7_witness :
    (parseRequest repoConfig rawNoToken).valid = true :=
  (C7_amended rawNoToken).mpr (by decide)

/-- C8: `POST /hash` answers 400 on an empty (or absent) body, and on a
non-empty body answers 200 with a JSON object having exactly the keys
`input`, `md5`, `sha1`, `length`: the body verbatim, its MD5 and SHA-1
lowercase hex digests over UTF-8, and its character length. -/
theorem C8_hash (env : Env) (st : HState) (req : HTTPRequest)
    (hm : req.method = some "POST") (hp : req.path = some "/hash") :
    (pyTruthyOpt req.body = false →
      (process_request env st req).2.status_code = 400) ∧
    (∀ b, req.body = some b → b ≠ "" →
      (process_request env st req).2.status_code = 200 ∧
      (process_request env st req).2.body =
        .json [("input", .s b), ("md5", .s (md5Hex (utf8Encode b))),
               ("sha1", .s (sha1Hex (utf8Encode b))),
               ("length", .n b.length)]) := by
  constructor
  · intro hb
    simp [process_request, hm, handle_post, hp, hb, create_error_response,
      setTemplateBody]
  · intro b hb hbne
    have hbb : pyTruthyOpt (some b) = true := by simp [pyTruthyOpt, hbne]
    simp [process_request, hm, handle_post, hp, hb, hbb, setJsonBody]

/-- C8, witness: `POST /hash` with body `"abc"` yields exactly the
well-known reference digests of `"abc"`. -/
theorem C8_witness :
    (process_request env0 hs0
      (demoReq "POST" "/hash" (some "abc"))).2.status_code = 200 ∧
    (process_request env0 hs0 (demoReq "POST" "/hash" (some "abc"))).2.body =
      .json [("input", .s "abc"),
             ("md5", .s "900150983cd24fb0d6963f7d28e17f72"),
             ("sha1", .s "a9993e364706816aba3e25717850c26c9cd0d89d"),
             ("length", .n 3)] := by
  have h := (C8_hash env0 hs0 (demoReq "POST" "/hash" (some "abc"))
    rfl rfl).2 "abc" rfl (by decide)
  rw [md5_abc, sha1_abc] at h
  exact h

/-- C9: `POST /echo` answers 400 on an empty (or absent) body, and on a
non-empty body answers 200 with the body echoed verbatim as the response
body and `Content-Type: text/plain; charset=utf-8`. -/
theorem C9_echo (env : Env) (st : HState) (req : HTTPRequest)
    (hm : req.method = some "POST") (hp : req.path = some "/echo") :
    (pyTruthyOpt req.body = false →
      (process_request env st req).2.status_code = 400) ∧
    (∀ b, req.body = some b → b ≠ "" →
      (process_request env st req).2.status_code = 200 ∧
      (process_request env st req).2.body = .text b ∧
      ((process_request env st req).2.headers.lookup "Content-Type") =
        some "text/plain; charset=utf-8") := by
  constructor
  · intro hb
    simp [process_request, hm, handle_post, hp, hb, create_error_response,
      setTemplateBody]
  · intro b hb hbne
    have hbb : pyTruthyOpt (some b) = true := by simp [pyTruthyOpt, hbne]
    refine ⟨?_, ?_, ?_⟩ <;>
      simp [process_request, hm, handle_post, hp, hb, hbb, setTextBody,
        dictInsert, initHeaders, List.lookup]

/-- C9, witness: `POST /echo` with body `"xyz"`. -/
theorem C9_witness :
    (process_request env0 hs0
      (demoReq "POST" "/echo" (some "xyz"))).2.status_code = 200 ∧
    (process_request env0 hs0 (demoReq "POST" "/echo" (some "xyz"))).2.body =
      .text "xyz" ∧
    ((process_request env0 hs0
      (demoReq "POST" "/echo" (some "xyz"))).2.headers.lookup
        "Content-Type") = some "text/plain; charset=utf-8" :=
  (C9_echo env0 hs0 (demoReq "POST" "/echo" (some "xyz")) rfl rfl).2
    "xyz" rfl (by decide)

/-- C10: request construction is total — `parseRequest` is a total
function of the raw text, the only fallible step of the source's `try`
block (the token recomputation inside `validar_custom_id`, which raises
when the configuration is invalid) is caught, forcing the
structural-validity flag and the authentication flag to `false`; and when
the request line has fewer than 3 whitespace tokens the method, path and
version fields stay unset (`none`) and the request is invalid. -/
theorem C10_parse_total (cfg : Config) (raw : String) :
    (∀ v e, (parseRequest cfg raw).headers.lookup "x-custom-id" = some v →
      validar_custom_id cfg v = .error e →
      (parseRequest cfg raw).valid = false ∧
      (parseRequest cfg raw).custom_id_valid = false) ∧
    ((pySplitWs (pyStrip ((pySplitCRLF raw).headD ""))).length < 3 →
      (parseRequest cfg raw).method = none ∧
      (parseRequest cfg raw).path = none ∧
      (parseRequest cfg raw).version = none ∧
      (parseRequest cfg raw).valid = false) := by
  constructor
  · intro v e hlk hval
    rw [parseRequest_headers] at hlk
    unfold parseRequest
    simp only [hlk, hval]
    exact ⟨trivial, trivial⟩
  · intro hlen
    have h3 : ¬ 3 ≤ (pySplitWs (pyStrip ((pySplitCRLF raw).headD ""))).length :=
      by omega
    have hm : (parsePre raw).method = none := by
      unfold parsePre
      dsimp only
      simp only [if_neg h3]
    have hp : (parsePre raw).path = none := by
      unfold parsePre
      dsimp only
      simp only [if_neg h3]
    have hvv : (parsePre raw).version = none := by
      unfold parsePre
      dsimp only
      simp only [if_neg h3]
    have hva : (parsePre raw).valid = false := by
      unfold parsePre
      dsimp only
      simp only [if_neg h3]
      rfl
    refine ⟨?_, ?_, ?_, ?_⟩
    · rw [parseRequest_method, hm]
    · rw [parseRequest_path, hp]
    · rw [parseRequest_version, hvv]
    · exact parseRequest_valid_false cfg raw hva

/-- C10, witness: an invalid configuration makes the token step raise on
a well-formed request carrying a header, and the request comes back with
both flags `false`; a one-token request line leaves the fields unset. -/
theorem C10_witness :
    ((parseRequest cfgBadId rawBadLineWithHeader).valid = false ∧
      (parseRequest cfgBadId rawBadLineWithHeader).custom_id_valid = false) ∧
    ((parseRequest cfgBadId rawBadLine).method = none ∧
      (parseRequest cfgBadId rawBadLine).path = none ∧
      (parseRequest cfgBadId rawBadLine).version = none ∧
      (parseRequest cfgBadId rawBadLine).valid = false) :=
  ⟨(C10_parse_total cfgBadId rawBadLineWithHeader).1 "abc"
      "Matrícula deve ter exatamente 4 dígitos numéricos" (by rfl) (by rfl),
   (C10_parse_total cfgBadId rawBadLine).2 (by decide)⟩

end WebServer
